import Mathlib

/-!
Verification of the screen-reader pipeline (`src/`): the chat dedup monitor
(`src/chat_monitor.py`), the TTS queue worker (`src/tts_streamer.py`), the
capture-loop change detection (`src/main.py`) and the dialog summarizer's
in-flight guard (`src/dialog_summarizer.py`), shallowly embedded in Lean.
Stateful Python methods become pure state-transition functions; the
filesystem effects that the claims mention (transcript appends, saved
capture files, dialog files moving between the unplayed and played
directories) are carried explicitly in the state records.
-/

/-! ### Python string primitives

The monitor relies on `str.lower`, `str.split()` (whitespace runs, no empty
parts), `str.strip()`, `str.startswith`, and the substring test `a in b`.
They are modelled character-list-wise over the ASCII whitespace set that
`str.split`/`str.strip` use for the texts in play. -/

/-- Whitespace characters recognised by Python's `str.split()` / `str.strip()`
(ASCII subset). -/
def isPySpace (c : Char) : Bool :=
  c == ' ' || c == '\t' || c == '\n' || c == '\r' || c == '\x0b' || c == '\x0c'

/-- `str.lower()` (character-wise lowercasing). -/
def pyLower (s : String) : String :=
  String.mk (s.data.map Char.toLower)

/-- Helper for `pySplit`: scan the characters, `acc` holds the current word
reversed. Splits on runs of whitespace and produces no empty parts, exactly
like Python's `str.split()` with no argument. -/
def wordsAux : List Char → List Char → List String
  | [], acc => if acc.isEmpty then [] else [String.mk acc.reverse]
  | c :: rest, acc =>
    if isPySpace c then
      if acc.isEmpty then wordsAux rest []
      else String.mk acc.reverse :: wordsAux rest []
    else wordsAux rest (c :: acc)

/-- `str.split()` with no separator: split on whitespace runs, drop empties. -/
def pySplit (s : String) : List String :=
  wordsAux s.data []

/-- `str.strip()`: remove leading and trailing whitespace. -/
def pyStrip (s : String) : String :=
  String.mk (((s.data.dropWhile isPySpace).reverse.dropWhile isPySpace).reverse)

/-- Does `hay` start with `needle`? (List-level helper for `startswith` and
the substring test.) -/
def leadsWith : List Char → List Char → Bool
  | [], _ => true
  | _ :: _, [] => false
  | a :: as, b :: bs => a == b && leadsWith as bs

/-- Is `n` a contiguous sublist of `hay`? Python's `n in hay` on strings. -/
def subOf (n : List Char) : List Char → Bool
  | [] => leadsWith n []
  | c :: t => leadsWith n (c :: t) || subOf n (c :: t).tail

/-- Python `needle in hay` for strings (substring containment; the empty
string is contained in every string). -/
def pyIn (needle hay : String) : Bool :=
  subOf needle.data hay.data

/-- Python `s.startswith(pre)`. -/
def pyStartsWith (s pre : String) : Bool :=
  leadsWith pre.data s.data

/-! ### ChatMonitor (src/chat_monitor.py)

State of a `ChatMonitor` instance: the seen-message set of normalized
forms, the bounded recent-message window of raw accepted lines, and the
transcript file `captured_text.txt` modelled as the list of appended
lines. -/

/-- `ChatMonitor.max_recent`. -/
def max_recent : Nat := 10

/-- The mutable state of a `ChatMonitor` plus its transcript file. -/
structure ChatMonitor where
  seen_messages : Finset String
  recent_messages : List String
  captured_text_file : List String
  deriving DecidableEq

/-- A freshly constructed `ChatMonitor` (empty set, empty window, empty
transcript file). -/
def initMonitor : ChatMonitor :=
  { seen_messages := ∅, recent_messages := [], captured_text_file := [] }

/-- `ChatMonitor._normalize_message`: lowercase, collapse whitespace, then
drop every character that is not alphanumeric, whitespace or a period. -/
def normalize_message (text : String) : String :=
  let t := String.intercalate " " (pySplit (pyLower text))
  String.mk (t.data.filter fun c => c.isAlphanum || isPySpace c || c == '.')

/-- `ChatMonitor._is_similar` on already-normalized texts: true when one is
a substring of the other, or when the word sets overlap in more than 80%
of their union. The float comparison `overlap / total > 0.8` is modelled
exactly as the rational comparison `5 * overlap > 4 * total`. -/
def is_similar (text1 text2 : String) : Bool :=
  if pyIn text1 text2 || pyIn text2 text1 then
    true
  else
    let words1 := (pySplit text1).toFinset
    let words2 := (pySplit text2).toFinset
    let overlap := (words1 ∩ words2).card
    let total := (words1 ∪ words2).card
    if 0 < total ∧ 4 * total < 5 * overlap then true else false

/-- `ChatMonitor._is_duplicate`: exact hit in the seen-set, else fuzzy hit
against any line of the recent window. -/
def is_duplicate (m : ChatMonitor) (text : String) : Bool :=
  let normalized := normalize_message text
  if normalized ∈ m.seen_messages then true
  else m.recent_messages.any fun recent => is_similar normalized (normalize_message recent)

/-- `ChatMonitor.process_text`: returns the text written (empty when the
line is dropped) together with the updated monitor state. -/
def process_text (m : ChatMonitor) (new_text0 : String) : String × ChatMonitor :=
  if new_text0 = "NO_NEW_MESSAGES" then ("", m)
  else
    let new_text := pyStrip new_text0
    if new_text = "" then ("", m)
    else if pyStartsWith new_text "### " then
      (new_text, { m with captured_text_file := m.captured_text_file ++ [new_text] })
    else if is_duplicate m new_text then ("", m)
    else
      let normalized := normalize_message new_text
      let recent0 := m.recent_messages ++ [new_text]
      (new_text,
        { seen_messages := insert normalized m.seen_messages,
          recent_messages := if max_recent < recent0.length then recent0.drop 1 else recent0,
          captured_text_file := m.captured_text_file ++ [new_text] })

/-- Run a sequence of `process_text` calls, keeping only the state. -/
def run_monitor (m : ChatMonitor) (ts : List String) : ChatMonitor :=
  ts.foldl (fun s t => (process_text s t).2) m

/-! ### TTSStreamer (src/tts_streamer.py)

State of a `TTSStreamer` instance plus the dialog directories: the pending
queue of (text, file-path) pairs, the processed-file set, and the sets of
file paths currently present in the unplayed dialogs directory and in its
`played` subdirectory. -/

/-- TTS worker state together with the dialog file directories. -/
structure TTSState where
  dialog_queue : List (String × String)
  processed_files : Finset String
  unplayed : Finset String
  played : Finset String
  deriving DecidableEq

/-- `TTSStreamer.add_dialog`: enqueue unless the path was already
processed. -/
def add_dialog (s : TTSState) (text : String) (dialog_file : String) : TTSState :=
  if dialog_file ∈ s.processed_files then s
  else { s with dialog_queue := s.dialog_queue ++ [(text, dialog_file)] }

/-- One iteration of `TTSStreamer._process_queue` when the worker is idle:
dequeue the head item; skip it if the path is already processed; otherwise
stream the audio.  `streamOk` tells whether the `stream(audio_stream)` call
returned normally (`true`) or raised (`false`).  On normal return the path
is added to the processed set and the file, if still in the unplayed
directory, is moved to `played`; on an exception the `except` branch only
logs, so the processed set and the directories are untouched.  The second
component records a completed playback of the file, `none` otherwise. -/
def process_queue_step (s : TTSState) (streamOk : Bool) : TTSState × Option String :=
  match s.dialog_queue with
  | [] => (s, none)
  | (_, dialog_file) :: rest =>
    if dialog_file ∈ s.processed_files then
      ({ s with dialog_queue := rest }, none)
    else if streamOk then
      let s1 := { s with dialog_queue := rest,
                         processed_files := insert dialog_file s.processed_files }
      if dialog_file ∈ s1.unplayed then
        ({ s1 with unplayed := s1.unplayed.erase dialog_file,
                   played := insert dialog_file s1.played }, some dialog_file)
      else (s1, some dialog_file)
    else
      ({ s with dialog_queue := rest }, none)

/-- Run the worker for a list of streaming outcomes; returns the final
state and the list of completed playbacks in order. -/
def run_queue : TTSState → List Bool → TTSState × List String
  | s, [] => (s, [])
  | s, ok :: rest =>
    let step := process_queue_step s ok
    let next := run_queue step.1 rest
    (next.1, step.2.toList ++ next.2)

/-- Concrete TTS state used to exhibit the error path of
`_process_queue`: one queued item, its file still unplayed. -/
def sCexTTS : TTSState :=
  { dialog_queue := [("hi", "f")], processed_files := ∅,
    unplayed := {"f"}, played := ∅ }

/-- An empty TTS state. -/
def initTTS : TTSState :=
  { dialog_queue := [], processed_files := ∅, unplayed := ∅, played := ∅ }

/-- A TTS state whose queue head was already processed. -/
def queuedTTS : TTSState :=
  { dialog_queue := [("t", "p")], processed_files := {"p"}, unplayed := ∅, played := ∅ }

/-- A TTS state that has already processed the path "p". -/
def processedTTS : TTSState :=
  { dialog_queue := [], processed_files := {"p"}, unplayed := ∅, played := ∅ }

/-! ### Capture loop change detection (src/main.py, MainWindow.process_image)

The image is its PNG byte content; the fingerprint function (`hashlib.md5`
in the source) is a parameter, since the logic depends only on hash
equality.  The state keeps the reentrancy flag, the stored hash (absent
before the first capture, like the `hasattr` check), and the file-system /
log effects: writes of the fixed last-capture preview file, saved
timestamped capture files, extraction calls issued, and log lines. -/

/-- A captured image as its byte content. -/
def Img : Type := List Nat

instance : DecidableEq Img := by
  unfold Img
  infer_instance

/-- State of `MainWindow` relevant to `process_image`, with explicit
effect logs. -/
structure MainState where
  is_processing_image : Bool
  last_hash : Option String
  preview_writes : List Img
  captures : List Img
  extraction_calls : List Img
  log : List String
  deriving DecidableEq

/-- `MainWindow` before the first capture. -/
def initMain : MainState :=
  { is_processing_image := false, last_hash := none, preview_writes := [],
    captures := [], extraction_calls := [], log := [] }

/-- `MainWindow.process_image`.  The preview file is saved on every
non-reentrant call, before the hash comparison.  On a first-or-changed
fingerprint the stored hash is replaced, a "[CAPTURE] New image detected"
line is logged and a timestamped copy is saved; the extraction call
(`process_text_with_openai`) is commented out in the source, so
`extraction_calls` is never extended. -/
def process_image (md5 : Img → String) (s : MainState) (image : Img) : MainState :=
  if s.is_processing_image then s
  else
    let new_hash := md5 image
    let s1 := { s with preview_writes := s.preview_writes ++ [image] }
    if s1.last_hash ≠ some new_hash then
      { s1 with last_hash := some new_hash,
                log := s1.log ++ ["[CAPTURE] New image detected"],
                captures := s1.captures ++ [image] }
    else s1

/-- Concrete fingerprint function for witnesses (any function works for
the theorems; this one is executable). -/
def hashLen : Img → String := fun i => toString (List.length i)

/-- Concrete image bytes for the counterexample. -/
def imgA : Img := [0, 1, 2]

/-! ### DialogSummarizer in-flight guard (src/dialog_summarizer.py)

`process_captured_text` reads the transcript and, unless a summarization
is already in flight or the text is unchanged, starts one: the await on
`summarize_text` is the suspension point, so one call is modelled as an
`invoke` event (everything up to the await) followed later by a `finish`
event (the `finally` clause).  The state carries `current_text`, the
in-progress flag, the `text_changed_during_summarization` flag (assigned
`False` in `__init__` and never written again in the source), and the list
of texts handed to `summarize_text`. -/

/-- State of a `DialogSummarizer` instance. -/
structure DialogSum where
  current_text : String
  summarization_in_progress : Bool
  text_changed_during_summarization : Bool
  summarize_calls : List String
  deriving DecidableEq

/-- A freshly constructed summarizer. -/
def initDS : DialogSum :=
  { current_text := "", summarization_in_progress := false,
    text_changed_during_summarization := false, summarize_calls := [] }

/-- Events of the summarizer: an invocation of `process_captured_text`
with the transcript content it reads (`none` when the file is missing),
and the completion of an in-flight `summarize_text` await. -/
inductive DSEvent where
  | invoke (fileContent : Option String)
  | finish
  deriving DecidableEq

/-- One event of the summarizer state machine. An `invoke` while a
summarization is in progress prints and returns — no field changes. -/
def ds_step (s : DialogSum) : DSEvent → DialogSum
  | .invoke fileContent =>
    if s.summarization_in_progress then s
    else
      match fileContent with
      | none => s
      | some raw =>
        let current_text := pyStrip raw
        if current_text = "" ∨ current_text = s.current_text then s
        else { s with current_text := current_text,
                      summarization_in_progress := true,
                      summarize_calls := s.summarize_calls ++ [current_text] }
  | .finish => { s with summarization_in_progress := false }

/-- Run a sequence of summarizer events. -/
def ds_run (s : DialogSum) (evs : List DSEvent) : DialogSum :=
  evs.foldl ds_step s

/-- A summarizer with a summarization currently in flight. -/
def inFlightDS : DialogSum :=
  { current_text := "a", summarization_in_progress := true,
    text_changed_during_summarization := false, summarize_calls := ["a"] }

/-- The lines accepted (written as non-header content) by a run of
`process_text` calls, in order. -/
def accepted_lines (m : ChatMonitor) : List String → List String
  | [] => []
  | t :: ts =>
    let res := process_text m t
    if res.1 ≠ "" ∧ pyStartsWith (pyStrip t) "### " = false
    then pyStrip t :: accepted_lines res.2 ts
    else accepted_lines res.2 ts

/-- A monitor whose recent window is full, used to instantiate the
eviction theorem. -/
def fullMonitor : ChatMonitor :=
  { seen_messages := ∅,
    recent_messages := ["a0", "a1", "a2", "a3", "a4", "a5", "a6", "a7", "a8", "a9"],
    captured_text_file := [] }

/-- A monitor whose recent window holds one ordinary line. -/
def oneLineMonitor : ChatMonitor :=
  { seen_messages := ∅, recent_messages := ["hello"], captured_text_file := [] }

/-- A monitor whose recent window holds a punctuation-only line (its
normalized form is empty). -/
def punctMonitor : ChatMonitor :=
  { seen_messages := ∅, recent_messages := ["!!!"], captured_text_file := [] }

/-! ### Lemmas about the chat monitor -/

theorem subOf_nil (l : List Char) : subOf [] l = true := by
  cases l <;> simp [subOf, leadsWith]

theorem is_similar_empty_left (x : String) : is_similar "" x = true := by
  have h : pyIn "" x = true := subOf_nil x.data
  simp [is_similar, h]

theorem is_similar_empty_right (x : String) : is_similar x "" = true := by
  have h : pyIn "" x = true := subOf_nil x.data
  simp [is_similar, h]

theorem is_duplicate_of_seen (m : ChatMonitor) (text : String)
    (h : normalize_message text ∈ m.seen_messages) : is_duplicate m text = true := by
  simp [is_duplicate, h]

theorem is_duplicate_of_recent (m : ChatMonitor) (text r : String)
    (hr : r ∈ m.recent_messages)
    (hs : is_similar (normalize_message text) (normalize_message r) = true) :
    is_duplicate m text = true := by
  by_cases h : normalize_message text ∈ m.seen_messages
  · simp [is_duplicate, h]
  · simp only [is_duplicate, if_neg h, List.any_eq_true]
    exact ⟨r, hr, hs⟩

theorem reject_of_dup (m : ChatMonitor) (t : String)
    (hh : pyStartsWith (pyStrip t) "### " = false)
    (hd : is_duplicate m (pyStrip t) = true) :
    process_text m t = ("", m) := by
  by_cases h1 : t = "NO_NEW_MESSAGES"
  · simp [process_text, h1]
  · by_cases h2 : pyStrip t = ""
    · simp [process_text, h1, h2]
    · simp [process_text, h1, h2, hh, hd]

theorem process_text_accept (m : ChatMonitor) (t : String)
    (hh : pyStartsWith (pyStrip t) "### " = false)
    (hacc : (process_text m t).1 ≠ "") :
    process_text m t = (pyStrip t,
      { seen_messages := insert (normalize_message (pyStrip t)) m.seen_messages,
        recent_messages :=
          if max_recent < (m.recent_messages ++ [pyStrip t]).length
          then (m.recent_messages ++ [pyStrip t]).drop 1
          else m.recent_messages ++ [pyStrip t],
        captured_text_file := m.captured_text_file ++ [pyStrip t] }) := by
  by_cases h1 : t = "NO_NEW_MESSAGES"
  · simp [process_text, h1] at hacc
  · by_cases h2 : pyStrip t = ""
    · simp [process_text, h1, h2] at hacc
    · by_cases h4 : is_duplicate m (pyStrip t) = true
      · simp [process_text, h1, h2, hh, h4] at hacc
      · simp [process_text, h1, h2, hh, h4]

theorem seen_mono_step (m : ChatMonitor) (t : String) :
    m.seen_messages ⊆ (process_text m t).2.seen_messages := by
  by_cases h1 : t = "NO_NEW_MESSAGES"
  · simp [process_text, h1]
  · by_cases h2 : pyStrip t = ""
    · simp [process_text, h1, h2]
    · by_cases h3 : pyStartsWith (pyStrip t) "### " = true
      · simp [process_text, h1, h2, h3]
      · by_cases h4 : is_duplicate m (pyStrip t) = true
        · simp [process_text, h1, h2, h3, h4]
        · simp only [process_text, if_neg h1, if_neg h2, h3, Bool.false_eq_true, if_false,
            h4, if_neg]
          exact Finset.subset_insert _ _

theorem seen_mono_run (ts : List String) : ∀ m : ChatMonitor,
    m.seen_messages ⊆ (run_monitor m ts).seen_messages := by
  induction ts with
  | nil => intro m; simp [run_monitor]
  | cons t rest ih =>
    intro m
    have h1 := seen_mono_step m t
    have h2 := ih (process_text m t).2
    simp only [run_monitor, List.foldl_cons] at h2 ⊢
    exact h1.trans h2

theorem accepted_seen (m : ChatMonitor) (t : String)
    (hh : pyStartsWith (pyStrip t) "### " = false)
    (hacc : (process_text m t).1 ≠ "") :
    normalize_message (pyStrip t) ∈ (process_text m t).2.seen_messages := by
  rw [process_text_accept m t hh hacc]
  exact Finset.mem_insert_self _ _

theorem rtake_of_length_le {α : Type} {l : List α} {n : Nat} (h : l.length ≤ n) :
    List.rtake l n = l := by
  simp [List.rtake, Nat.sub_eq_zero_of_le h]

theorem rtake_append_rtake {α : Type} (n : Nat) (l l' : List α) :
    List.rtake (List.rtake l n ++ l') n = List.rtake (l ++ l') n := by
  simp only [List.rtake_eq_reverse_take_reverse, List.reverse_append, List.reverse_reverse,
    List.take_append_eq_append_take, List.take_take, List.length_reverse, List.length_take]
  rw [min_eq_left (Nat.sub_le n l'.length)]

theorem recent_step (m : ChatMonitor) (t : String)
    (hlen : m.recent_messages.length ≤ max_recent) :
    (process_text m t).2.recent_messages =
      if (process_text m t).1 ≠ "" ∧ pyStartsWith (pyStrip t) "### " = false
      then List.rtake (m.recent_messages ++ [pyStrip t]) max_recent
      else m.recent_messages := by
  by_cases hacc : (process_text m t).1 ≠ ""
  · by_cases hh : pyStartsWith (pyStrip t) "### " = false
    · rw [if_pos ⟨hacc, hh⟩, process_text_accept m t hh hacc]
      by_cases hfull : max_recent < (m.recent_messages ++ [pyStrip t]).length
      · have h10 : m.recent_messages.length = max_recent := by
          simp only [List.length_append, List.length_singleton] at hfull
          omega
        rw [if_pos hfull]
        simp [List.rtake, h10]
      · rw [if_neg hfull]
        have : (m.recent_messages ++ [pyStrip t]).length ≤ max_recent := by omega
        exact (rtake_of_length_le this).symm
    · rw [if_neg (by simp [hh])]
      have hh' : pyStartsWith (pyStrip t) "### " = true := by
        revert hh; cases pyStartsWith (pyStrip t) "### " <;> simp
      by_cases h1 : t = "NO_NEW_MESSAGES"
      · simp [process_text, h1]
      · by_cases h2 : pyStrip t = ""
        · simp [process_text, h1, h2]
        · simp [process_text, h1, h2, hh']
  · rw [if_neg (by simp [hacc])]
    have hacc' : (process_text m t).1 = "" := by
      revert hacc; by_cases h : (process_text m t).1 = "" <;> simp [h]
    by_cases h1 : t = "NO_NEW_MESSAGES"
    · simp [process_text, h1]
    · by_cases h2 : pyStrip t = ""
      · simp [process_text, h1, h2]
      · by_cases h3 : pyStartsWith (pyStrip t) "### " = true
        · exfalso
          apply hacc
          simp [process_text, h1, h2, h3]
        · by_cases h4 : is_duplicate m (pyStrip t) = true
          · simp [process_text, h1, h2, h3, h4]
          · exfalso
            apply hacc
            simp [process_text, h1, h2, h3, h4]

theorem recent_run (ts : List String) : ∀ m : ChatMonitor,
    m.recent_messages.length ≤ max_recent →
    (run_monitor m ts).recent_messages
        = List.rtake (m.recent_messages ++ accepted_lines m ts) max_recent ∧
    (run_monitor m ts).recent_messages.length ≤ max_recent := by
  induction ts with
  | nil =>
    intro m hm
    refine ⟨?_, hm⟩
    simp [run_monitor, accepted_lines, rtake_of_length_le hm]
  | cons t rest ih =>
    intro m hm
    have hstep := recent_step m t hm
    have hlen' : (process_text m t).2.recent_messages.length ≤ max_recent := by
      rw [hstep]
      split
      · simp [List.rtake]
        omega
      · exact hm
    obtain ⟨ih1, ih2⟩ := ih (process_text m t).2 hlen'
    have hrun : run_monitor m (t :: rest) = run_monitor (process_text m t).2 rest := by
      simp [run_monitor]
    refine ⟨?_, by rw [hrun]; exact ih2⟩
    rw [hrun, ih1, hstep]
    by_cases hC : (process_text m t).1 ≠ "" ∧ pyStartsWith (pyStrip t) "### " = false
    · rw [if_pos hC]
      have hacc : accepted_lines m (t :: rest)
          = pyStrip t :: accepted_lines (process_text m t).2 rest := by
        simp only [accepted_lines, if_pos hC]
      rw [hacc, rtake_append_rtake]
      simp
    · rw [if_neg hC]
      have hacc : accepted_lines m (t :: rest)
          = accepted_lines (process_text m t).2 rest := by
        simp only [accepted_lines, if_neg hC]
      rw [hacc]

/-! ### Claim theorems for the chat monitor -/

/-- Claim C4: a non-header line that `process_text` has accepted (returned
non-empty) is rejected by every later `process_text` call with the same
line, after any interleaving sequence of further calls: the call returns
the empty string and leaves the state — in particular the transcript —
unchanged. -/
theorem chat_dedup_idempotent (m : ChatMonitor) (t : String) (ts : List String)
    (hh : pyStartsWith (pyStrip t) "### " = false)
    (hacc : (process_text m t).1 ≠ "") :
    process_text (run_monitor (process_text m t).2 ts) t
      = ("", run_monitor (process_text m t).2 ts) :=
  reject_of_dup _ _ hh
    (is_duplicate_of_seen _ _ (seen_mono_run ts _ (accepted_seen m t hh hacc)))

/-- Witness for C4: "Hello there." is accepted from the initial monitor,
and after processing one further line the same text is rejected with the
state unchanged. -/
theorem chat_dedup_idempotent_witness :
    pyStartsWith (pyStrip "Hello there.") "### " = false ∧
    (process_text initMonitor "Hello there.").1 ≠ "" ∧
    process_text (run_monitor (process_text initMonitor "Hello there.").2
        ["Another line"]) "Hello there."
      = ("", run_monitor (process_text initMonitor "Hello there.").2 ["Another line"]) :=
  ⟨by decide, by decide,
   chat_dedup_idempotent initMonitor "Hello there." ["Another line"] (by decide) (by decide)⟩

/-- Claim C5 (amended): if the stripped form of `t1` is still in the recent
window and the normalized forms of `t2` and `t1` are similar (mutual
substring, or word-overlap ratio above 0.8), then `process_text t2` returns
the empty string and changes nothing — provided `t2` is not itself a
timestamp header, since header lines bypass the duplicate checks. -/
theorem chat_fuzzy_dedup (m : ChatMonitor) (t1 t2 : String)
    (h1 : pyStrip t1 ∈ m.recent_messages)
    (hsim : is_similar (normalize_message (pyStrip t2)) (normalize_message (pyStrip t1)) = true)
    (hh : pyStartsWith (pyStrip t2) "### " = false) :
    process_text m t2 = ("", m) :=
  reject_of_dup _ _ hh (is_duplicate_of_recent _ _ _ h1 hsim)

/-- Witness for C5: after accepting "beta alpha", the line "alpha beta"
(same word set, so Jaccard ratio 1, and not a substring either way) is
rejected. -/
theorem chat_fuzzy_dedup_witness :
    pyStrip "beta alpha" ∈ ((process_text initMonitor "beta alpha").2).recent_messages ∧
    is_similar (normalize_message (pyStrip "alpha beta"))
        (normalize_message (pyStrip "beta alpha")) = true ∧
    process_text ((process_text initMonitor "beta alpha").2) "alpha beta"
      = ("", (process_text initMonitor "beta alpha").2) :=
  ⟨by decide, by decide,
   chat_fuzzy_dedup _ "beta alpha" "alpha beta" (by decide) (by decide) (by decide)⟩

/-- Counterexample to C5 as stated: "hello world" is accepted and sits in
the recent window, the header line "### hello world" is similar to it
(its normalized form " hello world" contains "hello world"), yet the
subsequent `process_text "### hello world"` returns non-empty, because
header lines bypass the duplicate checks. -/
theorem chat_fuzzy_header_cex :
    (process_text initMonitor "hello world").1 ≠ "" ∧
    pyStrip "hello world" ∈ ((process_text initMonitor "hello world").2).recent_messages ∧
    is_similar (normalize_message (pyStrip "### hello world"))
        (normalize_message (pyStrip "hello world")) = true ∧
    (process_text ((process_text initMonitor "hello world").2) "### hello world").1 ≠ "" := by
  decide

/-- Claim C6: a line whose stripped form begins with "### " is appended to
the transcript and returned, bypassing all duplicate checks; submitting it
twice appends it twice. -/
theorem chat_header_append (m : ChatMonitor) (t : String)
    (hh : pyStartsWith (pyStrip t) "### " = true) :
    process_text m t
      = (pyStrip t, { m with captured_text_file := m.captured_text_file ++ [pyStrip t] }) ∧
    (process_text (process_text m t).2 t).2.captured_text_file
      = m.captured_text_file ++ [pyStrip t, pyStrip t] := by
  have h1 : t ≠ "NO_NEW_MESSAGES" := by
    intro h
    rw [h] at hh
    exact absurd hh (by decide)
  have h2 : pyStrip t ≠ "" := by
    intro h
    rw [h] at hh
    exact absurd hh (by decide)
  have hmain : ∀ m' : ChatMonitor, process_text m' t
      = (pyStrip t, { m' with captured_text_file := m'.captured_text_file ++ [pyStrip t] }) := by
    intro m'
    simp [process_text, h1, h2, hh]
  refine ⟨hmain m, ?_⟩
  rw [hmain m, hmain _]
  simp

/-- Witness for C6: the header "### Session 1" is returned verbatim and
appended twice when submitted twice. -/
theorem chat_header_append_witness :
    process_text initMonitor "### Session 1"
      = (pyStrip "### Session 1",
         { initMonitor with
             captured_text_file := initMonitor.captured_text_file ++ [pyStrip "### Session 1"] }) ∧
    (process_text (process_text initMonitor "### Session 1").2 "### Session 1").2.captured_text_file
      = initMonitor.captured_text_file ++ [pyStrip "### Session 1", pyStrip "### Session 1"] :=
  chat_header_append initMonitor "### Session 1" (by decide)

/-- Claim C7: starting from a fresh monitor, the recent window always
equals the last `max_recent` accepted non-header lines (hence never holds
more than 10 entries), and accepting a line with the window full evicts
the oldest entry: the new window is the old one without its head, plus the
new line at the end. -/
theorem chat_window_bounded :
    (∀ ts : List String,
        (run_monitor initMonitor ts).recent_messages
          = List.rtake (accepted_lines initMonitor ts) max_recent ∧
        (run_monitor initMonitor ts).recent_messages.length ≤ max_recent) ∧
    (∀ (m : ChatMonitor) (t : String),
        m.recent_messages.length = max_recent →
        pyStartsWith (pyStrip t) "### " = false →
        (process_text m t).1 ≠ "" →
        (process_text m t).2.recent_messages
          = m.recent_messages.drop 1 ++ [pyStrip t]) := by
  constructor
  · intro ts
    have h := recent_run ts initMonitor (by simp [initMonitor, max_recent])
    simpa [initMonitor] using h
  · intro m t hm hh hacc
    rw [process_text_accept m t hh hacc]
    have hfull : max_recent < (m.recent_messages ++ [pyStrip t]).length := by
      simp [hm]
    simp only [if_pos hfull]
    cases hr : m.recent_messages with
    | nil =>
      rw [hr] at hm
      simp [max_recent] at hm
    | cons a rest => simp [hr]

/-- Witness for C7: the invariant at a concrete run, and eviction at a
concrete full window. -/
theorem chat_window_bounded_witness :
    ((run_monitor initMonitor ["one", "two"]).recent_messages
        = List.rtake (accepted_lines initMonitor ["one", "two"]) max_recent) ∧
    (process_text fullMonitor "zz").2.recent_messages
        = fullMonitor.recent_messages.drop 1 ++ [pyStrip "zz"] :=
  ⟨(chat_window_bounded.1 ["one", "two"]).1,
   chat_window_bounded.2 fullMonitor "zz" (by decide) (by decide) (by decide)⟩

/-- Claim C9: because the empty string is a substring of every string, a
non-header line with empty normalized form is rejected whenever the recent
window is non-empty; and once a line with empty normalized form sits in
the window, every non-header line is rejected as similar to it. -/
theorem chat_empty_normalization :
    (∀ (m : ChatMonitor) (t : String),
        m.recent_messages ≠ [] →
        normalize_message (pyStrip t) = "" →
        pyStartsWith (pyStrip t) "### " = false →
        process_text m t = ("", m)) ∧
    (∀ (m : ChatMonitor) (t : String),
        (∃ r ∈ m.recent_messages, normalize_message r = "") →
        pyStartsWith (pyStrip t) "### " = false →
        process_text m t = ("", m)) := by
  constructor
  · intro m t hne hnorm hh
    apply reject_of_dup m t hh
    cases hr : m.recent_messages with
    | nil => exact absurd hr hne
    | cons r rest =>
      apply is_duplicate_of_recent m _ r (by rw [hr]; exact List.mem_cons_self r rest)
      rw [hnorm]
      exact is_similar_empty_left _
  · intro m t hex hh
    obtain ⟨r, hr, hnr⟩ := hex
    apply reject_of_dup m t hh
    apply is_duplicate_of_recent m _ r hr
    rw [hnr]
    exact is_similar_empty_right _

/-- Witness for C9: "!!!" is rejected when "hello" is in the window, and
"hello" is rejected when "!!!" (empty normalized form) is in the window. -/
theorem chat_empty_normalization_witness :
    process_text oneLineMonitor "!!!" = ("", oneLineMonitor) ∧
    process_text punctMonitor "hello" = ("", punctMonitor) :=
  ⟨chat_empty_normalization.1 oneLineMonitor "!!!" (by decide) (by decide) (by decide),
   chat_empty_normalization.2 punctMonitor "hello" ⟨"!!!", by decide, by decide⟩ (by decide)⟩

/-- Claim C10: the similarity predicate is symmetric — the substring check
tests both directions and the word-overlap ratio is built from the
symmetric set intersection and union. -/
theorem similarity_symmetric (a b : String) : is_similar a b = is_similar b a := by
  simp only [is_similar]
  rw [Bool.or_comm, Finset.inter_comm, Finset.union_comm]

/-! ### Lemmas and claim theorems for the TTS streamer -/

theorem run_count (p : String) : ∀ (outcomes : List Bool) (s : TTSState),
    List.count p (run_queue s outcomes).2 ≤ if p ∈ s.processed_files then 0 else 1 := by
  intro outcomes
  induction outcomes with
  | nil =>
    intro s
    simp [run_queue]
  | cons ok rest ih =>
    intro s
    rcases hq : s.dialog_queue with _ | ⟨⟨txt, f⟩, tail⟩
    · have hstep : process_queue_step s ok = (s, none) := by
        simp [process_queue_step, hq]
      simp only [run_queue, hstep, Option.toList_none, List.nil_append]
      exact ih s
    · by_cases hf : f ∈ s.processed_files
      · have hstep : process_queue_step s ok = ({ s with dialog_queue := tail }, none) := by
          simp [process_queue_step, hq, hf]
        simp only [run_queue, hstep, Option.toList_none, List.nil_append]
        exact ih { s with dialog_queue := tail }
      · cases ok with
        | false =>
          have hstep : process_queue_step s false = ({ s with dialog_queue := tail }, none) := by
            simp [process_queue_step, hq, hf]
          simp only [run_queue, hstep, Option.toList_none, List.nil_append]
          exact ih { s with dialog_queue := tail }
        | true =>
          have h1 : (process_queue_step s true).2 = some f := by
            by_cases hu : f ∈ s.unplayed <;> simp [process_queue_step, hq, hf, hu]
          have h2 : (process_queue_step s true).1.processed_files
              = insert f s.processed_files := by
            by_cases hu : f ∈ s.unplayed <;> simp [process_queue_step, hq, hf, hu]
          have hcount := ih (process_queue_step s true).1
          rw [h2] at hcount
          simp only [run_queue, h1, Option.toList_some, List.singleton_append, List.count_cons,
            beq_iff_eq]
          by_cases hp : p = f
          · subst hp
            rw [if_pos (Finset.mem_insert_self p s.processed_files)] at hcount
            rw [if_neg hf, if_pos rfl]
            omega
          · rw [if_neg (fun h => hp h.symm)]
            have hmem : (p ∈ insert f s.processed_files) ↔ p ∈ s.processed_files := by
              simp [Finset.mem_insert, hp]
            rw [if_congr hmem rfl rfl] at hcount
            omega

/-- Claim C1 (amended): when the streaming call completes successfully the
dequeued file's path is added to the processed set and the file is moved
from the unplayed directory to the played directory (present in exactly
one of the two); when streaming raises, the `except` branch only logs, so
the processed set and both directories are untouched — only the queue
advances. -/
theorem tts_move_after_success (s : TTSState) (txt f : String)
    (rest : List (String × String))
    (hq : s.dialog_queue = (txt, f) :: rest) (hnp : f ∉ s.processed_files) :
    (f ∈ s.unplayed → f ∉ s.played →
        f ∈ (process_queue_step s true).1.processed_files ∧
        f ∈ (process_queue_step s true).1.played ∧
        f ∉ (process_queue_step s true).1.unplayed) ∧
    (process_queue_step s false).1 = { s with dialog_queue := rest } := by
  constructor
  · intro hu _
    simp only [process_queue_step, hq, if_neg hnp, if_pos rfl, if_pos hu]
    exact ⟨Finset.mem_insert_self _ _, Finset.mem_insert_self _ _,
      Finset.not_mem_erase _ _⟩
  · simp [process_queue_step, hq, hnp]

/-- Witness for C1: the concrete one-item state, processed with a
successful stream and with a failing stream. -/
theorem tts_move_after_success_witness :
    ("f" ∈ (process_queue_step sCexTTS true).1.processed_files ∧
     "f" ∈ (process_queue_step sCexTTS true).1.played ∧
     "f" ∉ (process_queue_step sCexTTS true).1.unplayed) ∧
    (process_queue_step sCexTTS false).1 = { sCexTTS with dialog_queue := [] } :=
  have h := tts_move_after_success sCexTTS "hi" "f" [] rfl (by decide)
  ⟨h.1 (by decide) (by decide), h.2⟩

/-- Counterexample to C1 as stated: with the streaming call raising, the
file is neither marked processed nor moved — it stays in the unplayed
directory, contradicting "regardless of whether streaming succeeded or
raised an error ... the file is moved". -/
theorem tts_stream_error_no_move_cex :
    "f" ∉ (process_queue_step sCexTTS false).1.processed_files ∧
    "f" ∈ (process_queue_step sCexTTS false).1.unplayed ∧
    "f" ∉ (process_queue_step sCexTTS false).1.played := by
  decide

/-- Claim C8: `add_dialog` does not enqueue a path already in the
processed set; a dequeued item whose path is already processed is skipped
without playback; and after two `add_dialog` calls with the same path,
any run of the worker completes at most one playback of that path. -/
theorem tts_no_duplicate_playback :
    (∀ (s : TTSState) (txt p : String),
        p ∈ s.processed_files → add_dialog s txt p = s) ∧
    (∀ (s : TTSState) (txt f : String) (rest : List (String × String)) (ok : Bool),
        s.dialog_queue = (txt, f) :: rest →
        f ∈ s.processed_files →
        process_queue_step s ok = ({ s with dialog_queue := rest }, none)) ∧
    (∀ (s : TTSState) (txt1 txt2 p : String) (outcomes : List Bool),
        List.count p (run_queue (add_dialog (add_dialog s txt1 p) txt2 p) outcomes).2 ≤ 1) := by
  refine ⟨?_, ?_, ?_⟩
  · intro s txt p hp
    simp [add_dialog, hp]
  · intro s txt f rest ok hq hf
    simp [process_queue_step, hq, hf]
  · intro s txt1 txt2 p outcomes
    refine le_trans (run_count p outcomes _) ?_
    split <;> simp

/-- Witness for C8: the three parts at concrete states. -/
theorem tts_no_duplicate_playback_witness :
    add_dialog processedTTS "t" "p" = processedTTS ∧
    process_queue_step queuedTTS true = ({ queuedTTS with dialog_queue := [] }, none) ∧
    List.count "p"
        (run_queue (add_dialog (add_dialog initTTS "a" "p") "b" "p") [true, true]).2 ≤ 1 :=
  ⟨tts_no_duplicate_playback.1 processedTTS "t" "p" (by decide),
   tts_no_duplicate_playback.2.1 queuedTTS "t" "p" [] true rfl (by decide),
   tts_no_duplicate_playback.2.2 initTTS "a" "b" "p" [true, true]⟩

/-! ### Claim theorems for the capture loop -/

/-- Claim C2 (amended): on a non-reentrant call, if this is the first
capture or the fingerprint differs from the stored one, the stored hash is
replaced, a timestamped copy is saved and the "New image detected" line is
logged; on an unchanged fingerprint the only side effect is rewriting the
fixed last-capture preview file (which is written on every call, before
the comparison); no call ever issues an extraction request, since that
call is commented out in the source; and of two bit-identical captures in
a row the second saves no timestamped copy. -/
theorem capture_change_detection (md5 : Img → String) (s : MainState) (img : Img)
    (hflag : s.is_processing_image = false) :
    (s.last_hash ≠ some (md5 img) →
        process_image md5 s img
          = { s with last_hash := some (md5 img),
                     preview_writes := s.preview_writes ++ [img],
                     captures := s.captures ++ [img],
                     log := s.log ++ ["[CAPTURE] New image detected"] }) ∧
    (s.last_hash = some (md5 img) →
        process_image md5 s img = { s with preview_writes := s.preview_writes ++ [img] }) ∧
    ((process_image md5 s img).extraction_calls = s.extraction_calls) ∧
    ((process_image md5 (process_image md5 s img) img).captures
        = (process_image md5 s img).captures) := by
  refine ⟨?_, ?_, ?_, ?_⟩
  · intro hne
    simp [process_image, hflag, hne]
  · intro heq
    simp [process_image, hflag, heq]
  · by_cases hne : s.last_hash = some (md5 img) <;> simp [process_image, hflag, hne]
  · by_cases hne : s.last_hash = some (md5 img) <;> simp [process_image, hflag, hne]

/-- Witness for C2: a first capture from the initial state, and a second
bit-identical capture saving no timestamped copy. -/
theorem capture_change_detection_witness :
    process_image hashLen initMain imgA
      = { initMain with last_hash := some (hashLen imgA),
                        preview_writes := initMain.preview_writes ++ [imgA],
                        captures := initMain.captures ++ [imgA],
                        log := initMain.log ++ ["[CAPTURE] New image detected"] } ∧
    (process_image hashLen (process_image hashLen initMain imgA) imgA).captures
      = (process_image hashLen initMain imgA).captures :=
  have h := capture_change_detection hashLen initMain imgA (by decide)
  ⟨h.1 (by decide), h.2.2.2⟩

/-- Counterexample to C2 as stated: the first capture triggers no
extraction call (it is commented out in the source), and an unchanged
frame still writes the preview file — a filesystem side effect. -/
theorem capture_side_effects_cex :
    (process_image hashLen initMain imgA).extraction_calls = [] ∧
    (process_image hashLen (process_image hashLen initMain imgA) imgA).preview_writes
      ≠ (process_image hashLen initMain imgA).preview_writes := by
  decide

/-! ### Lemmas and claim theorems for the dialog summarizer -/

theorem ds_step_flag (s : DialogSum) (e : DSEvent) :
    (ds_step s e).text_changed_during_summarization
      = s.text_changed_during_summarization := by
  cases e with
  | finish => simp [ds_step]
  | invoke c =>
    by_cases hp : s.summarization_in_progress = true
    · simp [ds_step, hp]
    · cases c with
      | none => simp [ds_step, hp]
      | some raw =>
        by_cases hc : pyStrip raw = "" ∨ pyStrip raw = s.current_text
        · simp [ds_step, hp, hc]
        · simp [ds_step, hp, hc]

/-- Claim C3 (amended): an invocation of `process_captured_text` while a
summarization is in flight returns immediately with the state unchanged —
never more than one summarization in flight — and in particular sets no
flag and schedules no follow-up: the `text_changed_during_summarization`
flag is never written after construction, and a changed transcript is
picked up only by a later invocation after the in-flight run finishes. -/
theorem summarizer_single_flight :
    (∀ (s : DialogSum) (c : Option String),
        s.summarization_in_progress = true → ds_step s (.invoke c) = s) ∧
    (∀ (s : DialogSum) (evs : List DSEvent),
        (ds_run s evs).text_changed_during_summarization
          = s.text_changed_during_summarization) ∧
    (∀ (s : DialogSum) (raw : String),
        s.summarization_in_progress = false →
        pyStrip raw ≠ "" →
        pyStrip raw ≠ s.current_text →
        ds_step s (.invoke (some raw))
          = { s with current_text := pyStrip raw,
                     summarization_in_progress := true,
                     summarize_calls := s.summarize_calls ++ [pyStrip raw] }) := by
  refine ⟨?_, ?_, ?_⟩
  · intro s c hp
    simp [ds_step, hp]
  · intro s evs
    induction evs generalizing s with
    | nil => simp [ds_run]
    | cons e rest ih =>
      have : ds_run s (e :: rest) = ds_run (ds_step s e) rest := by
        simp [ds_run]
      rw [this, ih (ds_step s e), ds_step_flag]
  · intro s raw hp hne hnc
    have hc : ¬(pyStrip raw = "" ∨ pyStrip raw = s.current_text) := by
      rintro (h | h)
      · exact hne h
      · exact hnc h
    simp [ds_step, hp, hc]

/-- Witness for C3: the three parts at concrete summarizer states. -/
theorem summarizer_single_flight_witness :
    ds_step inFlightDS (.invoke (some "b")) = inFlightDS ∧
    (ds_run initDS [.invoke (some "x"), .finish]).text_changed_during_summarization
      = initDS.text_changed_during_summarization ∧
    ds_step initDS (.invoke (some "x"))
      = { initDS with current_text := pyStrip "x",
                      summarization_in_progress := true,
                      summarize_calls := initDS.summarize_calls ++ [pyStrip "x"] } :=
  ⟨summarizer_single_flight.1 inFlightDS (some "b") (by decide),
   summarizer_single_flight.2.1 initDS [.invoke (some "x"), .finish],
   summarizer_single_flight.2.2 initDS "x" (by decide) (by decide) (by decide)⟩

/-- Counterexample to C3 as stated: invoke the summarizer on text "a"
(starting a run), invoke again on changed text "b" while the run is in
flight, then let the run finish: the changed-during-summarization flag is
still false (the source never assigns it) and exactly one
`summarize_text` call happened — no follow-up run was triggered on exit. -/
theorem summarizer_no_follow_up_cex :
    DialogSum.text_changed_during_summarization
        (ds_run initDS [.invoke (some "a"), .invoke (some "b"), .finish]) = false ∧
    (ds_run initDS [.invoke (some "a"), .invoke (some "b"), .finish]).summarize_calls
      = ["a"] := by
  decide
